import Mathlib

/-!
Verification of the debug/fault-simulation monitor
(`4 Debugging-Fault Simulation/debug_fault_sim.c`).

The C program is a single-threaded monitor: a bounded log buffer with
FIFO eviction (`log_message`), a saturating fault-history table
(`inject_fault`), a health tick with simulated gauges and a watchdog
(`check_system_health`), a recovery routine (`attempt_fault_recovery`),
and shutdown with a fatal state assertion (`debug_shutdown`).

Shallow embedding conventions:
- C enums `log_level_t` and `error_code_t` are `Nat` with named
  constants, mirroring the integer comparisons in the source
  (`level >= LOG_ERROR`).
- The fixed arrays `log_buffer` / `fault_history` with their counts are
  modelled as lists whose length is the count; slots beyond the count
  are never read by the source.
- The `uint16_t` health counters wrap modulo 2^16, written explicitly.
- Timestamps (`time_t`) are `Nat` inputs; the clock is assumed
  non-decreasing, matching every run the claims quantify over.
- The C statics `last_watchdog_feed` / `watchdog_logged` inside
  `check_system_health` are process-global state and are carried as the
  fields `wd_last_feed` / `wd_logged` of the monitor model; they are
  zero-initialised like the statics.
- Each raw buffer insertion also emits an `AppendEv` recording the
  monitor state at the moment of the append and the entry severity and
  error code: this is pure instrumentation used to state the escalation
  claims, it does not influence the computed monitor.
- `rand()` draws and `ferror` outcomes are explicit inputs.
-/

def MAX_LOG_ENTRIES : Nat := 1000
def MAX_FAULT_HISTORY : Nat := 50

-- log_level_t (numeric, as in the C enum)
def LOG_DEBUG : Nat := 0
def LOG_INFO : Nat := 1
def LOG_WARNING : Nat := 2
def LOG_ERROR : Nat := 3
def LOG_CRITICAL : Nat := 4

-- error_code_t (numeric, as in the C enum)
def ERR_NONE : Nat := 0
def ERR_SENSOR_FAILURE : Nat := 1
def ERR_ACTUATOR_STUCK : Nat := 2
def ERR_COMMUNICATION_LOST : Nat := 3
def ERR_POWER_FLUCTUATION : Nat := 4
def ERR_MEMORY_CORRUPTION : Nat := 5
def ERR_WATCHDOG_TIMEOUT : Nat := 6
def ERR_INVALID_STATE : Nat := 7
def ERR_FILE_IO_ERROR : Nat := 8
def ERR_SYSTEM_OVERLOAD : Nat := 9

/-- system_state_t from the source. -/
inductive system_state_t where
  | INIT
  | RUNNING
  | FAULT
  | RECOVERY
  | SHUTDOWN
deriving DecidableEq, Repr

/-- fault_type_t from the source. -/
inductive fault_type_t where
  | NONE
  | SENSOR_NOISE
  | ACTUATOR_FAIL
  | COMM_BREAK
  | POWER_SPIKE
  | MEMORY_LEAK
deriving DecidableEq, Repr

/-- Numeric value of a fault_type_t, used by the generated description
(`snprintf "Injected fault: %d"`). -/
def fault_type_t.code : fault_type_t → Nat
  | .NONE => 0
  | .SENSOR_NOISE => 1
  | .ACTUATOR_FAIL => 2
  | .COMM_BREAK => 3
  | .POWER_SPIKE => 4
  | .MEMORY_LEAK => 5

/-- log_entry_t from the source.  `strncpy` bounds message at 255 and the
origin label at 63 characters. -/
structure log_entry_t where
  timestamp : Nat
  level : Nat
  error_code : Nat
  message : String
  function : String
  line_number : Nat
deriving DecidableEq, Repr

/-- fault_record_t from the source.  `inject_fault` never writes the
record error_code field, so it keeps its zero initialisation (ERR_NONE). -/
structure fault_record_t where
  timestamp : Nat
  fault_type : fault_type_t
  error_code : Nat
  resolved : Bool
  description : String
deriving DecidableEq, Repr

/-- system_health_t from the source.  fault_count and recovery_count are
uint16_t in C and wrap modulo 2^16; the float gauges only ever hold small
integer values (10 + rand mod 40 and so on), so Nat is exact. -/
structure system_health_t where
  current_state : system_state_t
  uptime_seconds : Nat
  fault_count : Nat
  recovery_count : Nat
  cpu_usage_percent : Nat
  memory_usage_percent : Nat
  last_health_check : Nat
deriving DecidableEq, Repr

/-- debug_monitor_t from the source.  log_file becomes the flag that the
sink is open (fopen succeeded).  The two watchdog statics of
check_system_health are carried here, zero-initialised like C statics. -/
structure debug_monitor_t where
  log_buffer : List log_entry_t
  fault_history : List fault_record_t
  health : system_health_t
  log_file : Bool
  fault_injection_enabled : Bool
  active_fault : fault_type_t
  wd_last_feed : Nat
  wd_logged : Bool
deriving DecidableEq, Repr

/-- The C log_count field always equals the number of stored entries. -/
def debug_monitor_t.log_count (m : debug_monitor_t) : Nat :=
  m.log_buffer.length

/-- The C monitor-level fault_count field (history record count). -/
def debug_monitor_t.fault_count_in_history (m : debug_monitor_t) : Nat :=
  m.fault_history.length

/-- Instrumentation record: state at the moment of a raw append, plus
the severity level and error code of the appended entry. -/
structure AppendEv where
  stateAt : system_state_t
  level : Nat
  error_code : Nat
deriving DecidableEq, Repr

/-- The eviction-and-insert step of log_message (source lines 367-381):
if the buffer already holds MAX_LOG_ENTRIES entries, memmove drops the
oldest entry at index 0, shifts the remaining MAX_LOG_ENTRIES - 1
entries down one slot, and the new entry is written at the last slot;
otherwise the entry is written at index log_count and the count grows. -/
def log_buffer_insert (buf : List log_entry_t) (e : log_entry_t) :
    List log_entry_t :=
  if MAX_LOG_ENTRIES ≤ buf.length then
    ((buf.drop 1).take (MAX_LOG_ENTRIES - 1)) ++ [e]
  else
    buf ++ [e]

/-- log_message (source lines 365-399).  After storing the entry, a
severity at or above LOG_ERROR bumps health.fault_count, and if the
state is RUNNING it becomes FAULT and the source recursively calls
log_message with LOG_WARNING and the message "System entered fault
state".  That recursive call has level LOG_WARNING < LOG_ERROR, so it
deterministically takes the plain-append path; it is unfolded here
(second insertion and second event). -/
def log_message (m : debug_monitor_t) (now level error : Nat)
    (msg fn : String) (line : Nat) :
    debug_monitor_t × List AppendEv :=
  let e : log_entry_t :=
    { timestamp := now, level := level, error_code := error,
      message := msg.take 255, function := fn.take 63,
      line_number := line }
  let ev1 : AppendEv :=
    { stateAt := m.health.current_state, level := level,
      error_code := error }
  let m1 : debug_monitor_t :=
    { m with log_buffer := log_buffer_insert m.log_buffer e }
  if LOG_ERROR ≤ level then
    let m2 : debug_monitor_t :=
      { m1 with health :=
          { m1.health with
              fault_count := (m1.health.fault_count + 1) % 65536 } }
    if m2.health.current_state = system_state_t.RUNNING then
      let m3 : debug_monitor_t :=
        { m2 with health :=
            { m2.health with current_state := system_state_t.FAULT } }
      let e2 : log_entry_t :=
        { timestamp := now, level := LOG_WARNING, error_code := error,
          message := "System entered fault state",
          function := "log_message", line_number := 396 }
      let ev2 : AppendEv :=
        { stateAt := system_state_t.FAULT, level := LOG_WARNING,
          error_code := error }
      ({ m3 with log_buffer := log_buffer_insert m3.log_buffer e2 },
       [ev1, ev2])
    else
      (m2, [ev1])
  else
    (m1, [ev1])

/-- inject_fault (source lines 405-420). -/
def inject_fault (m : debug_monitor_t) (now : Nat) (fault : fault_type_t) :
    debug_monitor_t × List AppendEv :=
  let m1 : debug_monitor_t :=
    { m with fault_injection_enabled := true, active_fault := fault }
  let m2 : debug_monitor_t :=
    if m1.fault_history.length < MAX_FAULT_HISTORY then
      { m1 with fault_history := m1.fault_history ++
          [{ timestamp := now, fault_type := fault,
             error_code := ERR_NONE, resolved := false,
             description := "Injected fault: " ++ toString fault.code }] }
    else
      m1
  log_message m2 now LOG_WARNING ERR_NONE "Fault injection activated"
    "inject_fault" 419

/-- check_system_health (source lines 426-462).  r1 and r2 are the two
rand() draws for the simulated gauges.  The uptime field is the delta
since the previous check, exactly as in the source. -/
def check_system_health (m : debug_monitor_t) (now r1 r2 : Nat) :
    debug_monitor_t × List AppendEv :=
  let m0 : debug_monitor_t :=
    { m with health :=
        { m.health with
            uptime_seconds := now - m.health.last_health_check,
            cpu_usage_percent := 10 + r1 % 40,
            memory_usage_percent := 20 + r2 % 60 } }
  let p1 : debug_monitor_t × List AppendEv :=
    if 90 < m0.health.cpu_usage_percent then
      log_message m0 now LOG_ERROR ERR_SYSTEM_OVERLOAD
        "CPU usage critical" "check_system_health" 438
    else
      (m0, [])
  let p2 : debug_monitor_t × List AppendEv :=
    if 85 < p1.1.health.memory_usage_percent then
      log_message p1.1 now LOG_ERROR ERR_MEMORY_CORRUPTION
        "Memory usage critical" "check_system_health" 442
    else
      (p1.1, [])
  let p3 : debug_monitor_t × List AppendEv :=
    if p2.1.wd_last_feed = 0 then
      ({ p2.1 with wd_last_feed := now, wd_logged := false }, [])
    else if 5 ≤ now - p2.1.wd_last_feed then
      let q : debug_monitor_t × List AppendEv :=
        if ¬ p2.1.wd_logged then
          let r := log_message p2.1 now LOG_CRITICAL ERR_WATCHDOG_TIMEOUT
            "Watchdog timeout detected" "check_system_health" 454
          ({ r.1 with wd_logged := true }, r.2)
        else
          (p2.1, [])
      ({ q.1 with wd_last_feed := now }, q.2)
    else
      (p2.1, [])
  ({ p3.1 with health := { p3.1.health with last_health_check := now } },
   p1.2 ++ p2.2 ++ p3.2)

/-- The resolution loop of attempt_fault_recovery (source lines
485-490): each record with resolved still false is marked resolved and a
separate Info entry is logged.  done accumulates the already-visited
part of the table. -/
def resolveRecs (m : debug_monitor_t) (now : Nat)
    (pending done : List fault_record_t) :
    debug_monitor_t × List AppendEv :=
  match pending with
  | [] => ({ m with fault_history := done }, [])
  | r :: rest =>
    if r.resolved then
      resolveRecs m now rest (done ++ [r])
    else
      let p := log_message m now LOG_INFO ERR_NONE
        "Fault resolved in recovery attempt" "attempt_fault_recovery" 488
      let q := resolveRecs p.1 now rest (done ++ [{ r with resolved := true }])
      (q.1, p.2 ++ q.2)

/-- attempt_fault_recovery (source lines 468-503).  r1 and r2 are the
rand() draws for the post-recovery gauges.  The usleep delay does not
advance the model clock: timestamps are inputs. -/
def attempt_fault_recovery (m : debug_monitor_t) (now r1 r2 : Nat) :
    debug_monitor_t × List AppendEv :=
  if m.health.current_state ≠ system_state_t.FAULT then
    log_message m now LOG_INFO ERR_NONE "No faults to recover from"
      "attempt_fault_recovery" 470
  else
    let p1 := log_message m now LOG_INFO ERR_NONE
      "Attempting fault recovery" "attempt_fault_recovery" 474
    let mA : debug_monitor_t :=
      { p1.1 with fault_injection_enabled := false,
                  active_fault := fault_type_t.NONE }
    let mB : debug_monitor_t :=
      { mA with health :=
          { mA.health with
              current_state := system_state_t.RECOVERY,
              recovery_count := (mA.health.recovery_count + 1) % 65536 } }
    let p2 := resolveRecs mB now mB.fault_history []
    let mC : debug_monitor_t :=
      { p2.1 with health :=
          { p2.1.health with current_state := system_state_t.RUNNING } }
    let p3 := log_message mC now LOG_INFO ERR_NONE
      "Fault recovery successful" "attempt_fault_recovery" 498
    let mD : debug_monitor_t :=
      { p3.1 with health :=
          { p3.1.health with
              cpu_usage_percent := 15 + r1 % 20,
              memory_usage_percent := 25 + r2 % 25 } }
    (mD, p1.2 ++ p2.2 ++ p3.2)

/-- save_log_to_file (source lines 509-523).  writeErr is the ferror
outcome of the flush when the sink is open. -/
def save_log_to_file (m : debug_monitor_t) (now : Nat) (writeErr : Bool) :
    debug_monitor_t × List AppendEv :=
  if ¬ m.log_file then
    log_message m now LOG_ERROR ERR_FILE_IO_ERROR "Log file not available"
      "save_log_to_file" 511
  else if writeErr then
    log_message m now LOG_ERROR ERR_FILE_IO_ERROR "Error writing to log file"
      "save_log_to_file" 520
  else
    (m, [])

/-- debug_shutdown (source lines 344-359).  The final ASSERT_STATE
macro: when the state is FAULT after the flush, it logs a CRITICAL entry
and then assert() aborts the process; the Bool of the result is true
exactly when that assertion fires. -/
def debug_shutdown (m : debug_monitor_t) (now : Nat) (writeErr : Bool) :
    debug_monitor_t × List AppendEv × Bool :=
  let p1 := log_message m now LOG_INFO ERR_NONE
    "Shutting down debug monitoring system" "debug_shutdown" 345
  let p2 := save_log_to_file p1.1 now writeErr
  let mClosed : debug_monitor_t := { p2.1 with log_file := false }
  if mClosed.health.current_state = system_state_t.FAULT then
    let p3 := log_message mClosed now LOG_CRITICAL ERR_INVALID_STATE
      "System shutdown with unresolved faults" "debug_shutdown" 358
    (p3.1, p1.2 ++ p2.2 ++ p3.2, true)
  else
    (mClosed, p1.2 ++ p2.2, false)

/-- debug_init (source lines 315-338).  t0 is the start time; sink
records whether fopen succeeded.  memset zeroes every field, then the
state is set to INIT, two Info entries are logged around the transition
to RUNNING. -/
def debug_init (t0 : Nat) (sink : Bool) : debug_monitor_t :=
  let m0 : debug_monitor_t :=
    { log_buffer := [], fault_history := [],
      health :=
        { current_state := system_state_t.INIT, uptime_seconds := 0,
          fault_count := 0, recovery_count := 0,
          cpu_usage_percent := 0, memory_usage_percent := 0,
          last_health_check := t0 },
      log_file := sink, fault_injection_enabled := false,
      active_fault := fault_type_t.NONE,
      wd_last_feed := 0, wd_logged := false }
  let p1 := log_message m0 t0 LOG_INFO ERR_NONE
    "Debug monitoring system initialized" "debug_init" 333
  let m1 : debug_monitor_t :=
    { p1.1 with health :=
        { p1.1.health with current_state := system_state_t.RUNNING } }
  (log_message m1 t0 LOG_INFO ERR_NONE
    "System transitioned to RUNNING state" "debug_init" 337).1

/-- One operator- or scheduler-visible operation on the monitor.
display_debug_info only reads the monitor, so it is a pure no-op here. -/
inductive Op where
  | append (now level error : Nat) (msg fn : String) (line : Nat)
  | inject (now : Nat) (fault : fault_type_t)
  | tick (now r1 r2 : Nat)
  | recover (now r1 r2 : Nat)
  | display
  | shutdown (now : Nat) (writeErr : Bool)

/-- One operation step, with its instrumentation events. -/
def stepOp (m : debug_monitor_t) : Op → debug_monitor_t × List AppendEv
  | .append now level error msg fn line =>
      log_message m now level error msg fn line
  | .inject now fault => inject_fault m now fault
  | .tick now r1 r2 => check_system_health m now r1 r2
  | .recover now r1 r2 => attempt_fault_recovery m now r1 r2
  | .display => (m, [])
  | .shutdown now w =>
      ((debug_shutdown m now w).1, (debug_shutdown m now w).2.1)

/-- The monitor after one operation. -/
def applyOp (m : debug_monitor_t) (op : Op) : debug_monitor_t :=
  (stepOp m op).1

/-- The monitor reached from the initialized monitor by a sequence of
operations. -/
def runTrace (t0 : Nat) (sink : Bool) (ops : List Op) : debug_monitor_t :=
  ops.foldl applyOp (debug_init t0 sink)

/-- Fold over a trace accumulating the instrumentation events. -/
def runEvents (m : debug_monitor_t) : List Op → debug_monitor_t × List AppendEv
  | [] => (m, [])
  | op :: rest =>
    let p := stepOp m op
    let q := runEvents p.1 rest
    (q.1, p.2 ++ q.2)

/-- Number of watchdog-timeout log events (CRITICAL severity, watchdog
error code) in an event list. -/
def watchdog_events (evs : List AppendEv) : Nat :=
  (evs.filter
    (fun e => e.level == LOG_CRITICAL && e.error_code == ERR_WATCHDOG_TIMEOUT)).length

/-! ## Characterization lemmas for the buffer insertion and log_message -/

theorem log_buffer_insert_length_le (buf : List log_entry_t) (e : log_entry_t) :
    (log_buffer_insert buf e).length ≤ MAX_LOG_ENTRIES := by
  unfold log_buffer_insert MAX_LOG_ENTRIES
  split <;> (simp_all; try omega)

theorem log_buffer_insert_of_lt (buf : List log_entry_t) (e : log_entry_t)
    (h : buf.length < MAX_LOG_ENTRIES) :
    log_buffer_insert buf e = buf ++ [e] := by
  unfold log_buffer_insert
  rw [if_neg (by omega)]

theorem log_buffer_insert_full (buf : List log_entry_t) (e : log_entry_t)
    (h : buf.length = MAX_LOG_ENTRIES) :
    log_buffer_insert buf e = buf.drop 1 ++ [e] := by
  unfold log_buffer_insert
  rw [if_pos (by omega)]
  have htake : (buf.drop 1).take (MAX_LOG_ENTRIES - 1) = buf.drop 1 := by
    apply List.take_of_length_le
    simp [h]
  rw [htake]

theorem log_message_state (m : debug_monitor_t) (now level error : Nat)
    (msg fn : String) (line : Nat) :
    (log_message m now level error msg fn line).1.health.current_state =
      if LOG_ERROR ≤ level ∧ m.health.current_state = system_state_t.RUNNING
      then system_state_t.FAULT else m.health.current_state := by
  simp only [log_message]
  split_ifs with h1 h2 h3 <;> simp_all

theorem log_message_fault_count (m : debug_monitor_t) (now level error : Nat)
    (msg fn : String) (line : Nat) :
    (log_message m now level error msg fn line).1.health.fault_count =
      if LOG_ERROR ≤ level then (m.health.fault_count + 1) % 65536
      else m.health.fault_count := by
  simp only [log_message]
  split_ifs with h1 h2 <;> simp_all

theorem log_message_events (m : debug_monitor_t) (now level error : Nat)
    (msg fn : String) (line : Nat) :
    (log_message m now level error msg fn line).2 =
      if LOG_ERROR ≤ level ∧ m.health.current_state = system_state_t.RUNNING
      then [⟨m.health.current_state, level, error⟩,
            ⟨system_state_t.FAULT, LOG_WARNING, error⟩]
      else [⟨m.health.current_state, level, error⟩] := by
  simp only [log_message]
  split_ifs with h1 h2 h3 <;> simp_all

theorem log_message_preserves (m : debug_monitor_t) (now level error : Nat)
    (msg fn : String) (line : Nat) :
    (log_message m now level error msg fn line).1.fault_history = m.fault_history ∧
    (log_message m now level error msg fn line).1.fault_injection_enabled =
      m.fault_injection_enabled ∧
    (log_message m now level error msg fn line).1.active_fault = m.active_fault ∧
    (log_message m now level error msg fn line).1.log_file = m.log_file ∧
    (log_message m now level error msg fn line).1.wd_last_feed = m.wd_last_feed ∧
    (log_message m now level error msg fn line).1.wd_logged = m.wd_logged ∧
    (log_message m now level error msg fn line).1.health.recovery_count =
      m.health.recovery_count ∧
    (log_message m now level error msg fn line).1.health.uptime_seconds =
      m.health.uptime_seconds ∧
    (log_message m now level error msg fn line).1.health.cpu_usage_percent =
      m.health.cpu_usage_percent ∧
    (log_message m now level error msg fn line).1.health.memory_usage_percent =
      m.health.memory_usage_percent ∧
    (log_message m now level error msg fn line).1.health.last_health_check =
      m.health.last_health_check := by
  simp only [log_message]
  split_ifs with h1 h2 <;> simp_all

theorem log_message_buflen_le (m : debug_monitor_t) (now level error : Nat)
    (msg fn : String) (line : Nat) :
    (log_message m now level error msg fn line).1.log_buffer.length ≤
      MAX_LOG_ENTRIES := by
  simp only [log_message]
  split_ifs with h1 h2 <;> simp [log_buffer_insert_length_le]

/-- The simulated cpu gauge 10 + rand mod 40 never exceeds the overload
threshold 90. -/
theorem cpu_check_false (r1 : Nat) : ¬ (90 < 10 + r1 % 40) := by omega

/-- The simulated memory gauge 20 + rand mod 60 never exceeds the
critical threshold 85. -/
theorem mem_check_false (r2 : Nat) : ¬ (85 < 20 + r2 % 60) := by omega

/-- Full behaviour of the resolution loop: health, flags and the
watchdog statics are untouched, the history becomes the accumulator
followed by the pending records with resolved set, every emitted event
is at Info level, and the buffer stays bounded. -/
theorem resolveRecs_spec (now : Nat) :
    ∀ (pending : List fault_record_t) (m : debug_monitor_t)
      (done : List fault_record_t),
    (resolveRecs m now pending done).1.health.current_state =
      m.health.current_state ∧
    (resolveRecs m now pending done).1.health.recovery_count =
      m.health.recovery_count ∧
    (resolveRecs m now pending done).1.health.fault_count =
      m.health.fault_count ∧
    (resolveRecs m now pending done).1.health.cpu_usage_percent =
      m.health.cpu_usage_percent ∧
    (resolveRecs m now pending done).1.health.memory_usage_percent =
      m.health.memory_usage_percent ∧
    (resolveRecs m now pending done).1.health.uptime_seconds =
      m.health.uptime_seconds ∧
    (resolveRecs m now pending done).1.health.last_health_check =
      m.health.last_health_check ∧
    (resolveRecs m now pending done).1.fault_injection_enabled =
      m.fault_injection_enabled ∧
    (resolveRecs m now pending done).1.active_fault = m.active_fault ∧
    (resolveRecs m now pending done).1.log_file = m.log_file ∧
    (resolveRecs m now pending done).1.wd_last_feed = m.wd_last_feed ∧
    (resolveRecs m now pending done).1.wd_logged = m.wd_logged ∧
    (resolveRecs m now pending done).1.fault_history =
      done ++ pending.map
        (fun r => if r.resolved then r else { r with resolved := true }) ∧
    (∀ ev ∈ (resolveRecs m now pending done).2, ev.level = LOG_INFO) ∧
    (m.log_buffer.length ≤ MAX_LOG_ENTRIES →
      (resolveRecs m now pending done).1.log_buffer.length ≤ MAX_LOG_ENTRIES) := by
  intro pending
  induction pending with
  | nil =>
    intro m done
    simp [resolveRecs]
  | cons r rest ih =>
    intro m done
    by_cases hr : r.resolved = true
    · simp only [resolveRecs, if_pos hr]
      have h := ih m (done ++ [r])
      simpa [hr, List.append_assoc] using h
    · simp only [resolveRecs, if_neg hr]
      have hpres := log_message_preserves m now LOG_INFO ERR_NONE
        "Fault resolved in recovery attempt" "attempt_fault_recovery" 488
      have hstate := log_message_state m now LOG_INFO ERR_NONE
        "Fault resolved in recovery attempt" "attempt_fault_recovery" 488
      have hfc := log_message_fault_count m now LOG_INFO ERR_NONE
        "Fault resolved in recovery attempt" "attempt_fault_recovery" 488
      have hev := log_message_events m now LOG_INFO ERR_NONE
        "Fault resolved in recovery attempt" "attempt_fault_recovery" 488
      have hlow : ¬ (LOG_ERROR ≤ LOG_INFO) := by decide
      rw [if_neg (by simp [hlow])] at hstate hev
      rw [if_neg hlow] at hfc
      have hbl := log_message_buflen_le m now LOG_INFO ERR_NONE
        "Fault resolved in recovery attempt" "attempt_fault_recovery" 488
      have h := ih (log_message m now LOG_INFO ERR_NONE
        "Fault resolved in recovery attempt" "attempt_fault_recovery" 488).1
        (done ++ [{ r with resolved := true }])
      obtain ⟨c1, c2, c3, c4, c5, c6, c7, c8, c9, c10, c11, c12, c13, c14, c15⟩ := h
      obtain ⟨p1, p2, p3, p4, p5, p6, p7, p8, p9, p10, p11⟩ := hpres
      refine ⟨?_, ?_, ?_, ?_, ?_, ?_, ?_, ?_, ?_, ?_, ?_, ?_, ?_, ?_, ?_⟩
      · rw [c1, hstate]
      · rw [c2, p7]
      · rw [c3, hfc]
      · rw [c4, p9]
      · rw [c5, p10]
      · rw [c6, p8]
      · rw [c7, p11]
      · rw [c8, p2]
      · rw [c9, p3]
      · rw [c10, p4]
      · rw [c11, p5]
      · rw [c12, p6]
      · rw [c13]
        simp [hr, List.append_assoc]
      · intro ev hmem
        simp only [List.mem_append] at hmem
        rcases hmem with hmem | hmem
        · rw [hev] at hmem
          simp only [List.mem_singleton] at hmem
          rw [hmem]
        · exact c14 ev hmem
      · intro _
        exact c15 hbl

/-- log_message below LOG_ERROR is a plain bounded append. -/
theorem log_message_low_eq (m : debug_monitor_t) (now level error : Nat)
    (msg fn : String) (line : Nat) (h : level < LOG_ERROR) :
    log_message m now level error msg fn line =
      ({ m with log_buffer := (log_buffer_insert m.log_buffer
          ({ timestamp := now, level := level, error_code := error,
             message := msg.take 255, function := fn.take 63,
             line_number := line })) },
       [{ stateAt := m.health.current_state, level := level,
          error_code := error }]) := by
  unfold log_message
  rw [if_neg (by omega)]

/-- log_message at LOG_ERROR or above while RUNNING: entry stored,
fault_count bumped, state escalated to FAULT, and the recursive
LOG_WARNING entry stored as well. -/
theorem log_message_escalate_eq (m : debug_monitor_t) (now level error : Nat)
    (msg fn : String) (line : Nat) (h1 : LOG_ERROR ≤ level)
    (h2 : m.health.current_state = system_state_t.RUNNING) :
    log_message m now level error msg fn line =
      ({ m with
           log_buffer := (log_buffer_insert
             (log_buffer_insert m.log_buffer
               ({ timestamp := now, level := level, error_code := error,
                  message := msg.take 255, function := fn.take 63,
                  line_number := line }))
             ({ timestamp := now, level := LOG_WARNING, error_code := error,
                message := "System entered fault state",
                function := "log_message", line_number := 396 })),
           health := { m.health with
               fault_count := (m.health.fault_count + 1) % 65536,
               current_state := system_state_t.FAULT } },
       [{ stateAt := system_state_t.RUNNING, level := level,
          error_code := error },
        { stateAt := system_state_t.FAULT, level := LOG_WARNING,
          error_code := error }]) := by
  unfold log_message
  rw [if_pos h1]
  dsimp only
  rw [if_pos h2, h2]

/-- log_message at LOG_ERROR or above while not RUNNING: entry stored
and fault_count bumped, no state change and no secondary entry. -/
theorem log_message_err_norun_eq (m : debug_monitor_t) (now level error : Nat)
    (msg fn : String) (line : Nat) (h1 : LOG_ERROR ≤ level)
    (h2 : m.health.current_state ≠ system_state_t.RUNNING) :
    log_message m now level error msg fn line =
      ({ m with
           log_buffer := (log_buffer_insert m.log_buffer
             ({ timestamp := now, level := level, error_code := error,
                message := msg.take 255, function := fn.take 63,
                line_number := line })),
           health := { m.health with
               fault_count := (m.health.fault_count + 1) % 65536 } },
       [{ stateAt := m.health.current_state, level := level,
          error_code := error }]) := by
  unfold log_message
  rw [if_pos h1]
  dsimp only
  rw [if_neg h2]

/-- attempt_fault_recovery outside the FAULT state is exactly the single
informational append. -/
theorem attempt_fault_recovery_nofault_eq (m : debug_monitor_t)
    (now r1 r2 : Nat) (h : m.health.current_state ≠ system_state_t.FAULT) :
    attempt_fault_recovery m now r1 r2 =
      log_message m now LOG_INFO ERR_NONE "No faults to recover from"
        "attempt_fault_recovery" 470 := by
  unfold attempt_fault_recovery
  rw [if_pos h]

/-- attempt_fault_recovery from the FAULT state: final state RUNNING,
recovery counter bumped (uint16), injection disabled and cleared, and
the whole history marked resolved. -/
theorem attempt_fault_recovery_fault_spec (m : debug_monitor_t)
    (now r1 r2 : Nat) (h : m.health.current_state = system_state_t.FAULT) :
    (attempt_fault_recovery m now r1 r2).1.health.current_state =
      system_state_t.RUNNING ∧
    (attempt_fault_recovery m now r1 r2).1.health.recovery_count =
      (m.health.recovery_count + 1) % 65536 ∧
    (attempt_fault_recovery m now r1 r2).1.fault_injection_enabled = false ∧
    (attempt_fault_recovery m now r1 r2).1.active_fault = fault_type_t.NONE ∧
    (attempt_fault_recovery m now r1 r2).1.fault_history =
      m.fault_history.map
        (fun r => if r.resolved then r else { r with resolved := true }) := by
  have hne : ¬ (m.health.current_state ≠ system_state_t.FAULT) := by simp [h]
  have hlow : LOG_INFO < LOG_ERROR := by decide
  unfold attempt_fault_recovery
  rw [if_neg hne]
  simp only [log_message_low_eq _ _ _ _ _ _ _ hlow]
  simp [resolveRecs_spec]

/-- Every event emitted by attempt_fault_recovery from the FAULT state
is at Info level. -/
theorem attempt_fault_recovery_fault_events (m : debug_monitor_t)
    (now r1 r2 : Nat) (h : m.health.current_state = system_state_t.FAULT) :
    ∀ ev ∈ (attempt_fault_recovery m now r1 r2).2, ev.level = LOG_INFO := by
  have hne : ¬ (m.health.current_state ≠ system_state_t.FAULT) := by simp [h]
  have hlow : LOG_INFO < LOG_ERROR := by decide
  unfold attempt_fault_recovery
  rw [if_neg hne]
  simp only [log_message_low_eq _ _ _ _ _ _ _ hlow]
  intro ev hmem
  simp only [List.mem_append, List.mem_singleton] at hmem
  rcases hmem with (hmem | hmem) | hmem
  · rw [hmem]
  · obtain ⟨-, -, -, -, -, -, -, -, -, -, -, -, -, hev, -⟩ :=
      resolveRecs_spec now _ _ ([] : List fault_record_t)
    exact hev ev hmem
  · rw [hmem]

/-- Frame facts of the health tick: history, flags and counters other
than fault_count are untouched, and the gauges take the freshly
regenerated values. -/
theorem check_system_health_frame (m : debug_monitor_t) (now r1 r2 : Nat) :
    (check_system_health m now r1 r2).1.fault_history = m.fault_history ∧
    (check_system_health m now r1 r2).1.fault_injection_enabled =
      m.fault_injection_enabled ∧
    (check_system_health m now r1 r2).1.active_fault = m.active_fault ∧
    (check_system_health m now r1 r2).1.log_file = m.log_file ∧
    (check_system_health m now r1 r2).1.health.recovery_count =
      m.health.recovery_count ∧
    (check_system_health m now r1 r2).1.health.cpu_usage_percent =
      10 + r1 % 40 ∧
    (check_system_health m now r1 r2).1.health.memory_usage_percent =
      20 + r2 % 60 := by
  simp only [check_system_health]
  split_ifs <;>
    simp_all [cpu_check_false, mem_check_false, log_message_preserves]

/-- The health tick keeps the log buffer within capacity. -/
theorem check_system_health_buflen (m : debug_monitor_t) (now r1 r2 : Nat)
    (h : m.log_buffer.length ≤ MAX_LOG_ENTRIES) :
    (check_system_health m now r1 r2).1.log_buffer.length ≤
      MAX_LOG_ENTRIES := by
  simp only [check_system_health]
  split_ifs <;>
    simp_all [cpu_check_false, mem_check_false, log_message_buflen_le]

/-- Escalation analysis of the health tick: the state moves into FAULT
exactly when the watchdog CRITICAL append happens while RUNNING. -/
theorem check_system_health_c1 (m : debug_monitor_t) (now r1 r2 : Nat) :
    (m.health.current_state ≠ system_state_t.FAULT ∧
      (check_system_health m now r1 r2).1.health.current_state =
        system_state_t.FAULT)
    ↔ ∃ ev ∈ (check_system_health m now r1 r2).2,
        ev.stateAt = system_state_t.RUNNING ∧ LOG_ERROR ≤ ev.level := by
  by_cases hs : m.health.current_state = system_state_t.RUNNING <;>
  · simp only [check_system_health]
    split_ifs with h1 h2 h3 h4 h5 <;>
      simp_all [cpu_check_false, mem_check_false,
        log_message_state, log_message_events,
        (by decide : LOG_ERROR ≤ LOG_CRITICAL)]

/-- Full behaviour of inject_fault: flags set unconditionally, a record
is appended only below capacity, the single emitted event is the
Warning-level activation notice, and the state is untouched. -/
theorem inject_fault_spec (m : debug_monitor_t) (now : Nat)
    (k : fault_type_t) :
    (inject_fault m now k).1.health.current_state =
      m.health.current_state ∧
    (inject_fault m now k).1.health.fault_count = m.health.fault_count ∧
    (inject_fault m now k).1.health.recovery_count =
      m.health.recovery_count ∧
    (inject_fault m now k).1.fault_injection_enabled = true ∧
    (inject_fault m now k).1.active_fault = k ∧
    (inject_fault m now k).1.log_file = m.log_file ∧
    (inject_fault m now k).1.fault_history =
      (if m.fault_history.length < MAX_FAULT_HISTORY then
        m.fault_history ++
          [{ timestamp := now, fault_type := k, error_code := ERR_NONE,
             resolved := false,
             description := "Injected fault: " ++ toString k.code }]
      else m.fault_history) ∧
    (inject_fault m now k).2 =
      [{ stateAt := m.health.current_state, level := LOG_WARNING,
         error_code := ERR_NONE }] ∧
    (inject_fault m now k).1.log_buffer.length ≤ MAX_LOG_ENTRIES := by
  have hlow : LOG_WARNING < LOG_ERROR := by decide
  simp only [inject_fault]
  split_ifs with h <;>
    simp [h, log_message_low_eq _ _ _ _ _ _ _ hlow,
      log_buffer_insert_length_le]

/-- Escalation analysis of debug_shutdown: the state moves into FAULT
exactly when the file-error append of the flush happens while RUNNING. -/
theorem debug_shutdown_c1 (m : debug_monitor_t) (now : Nat) (w : Bool) :
    (m.health.current_state ≠ system_state_t.FAULT ∧
      (debug_shutdown m now w).1.health.current_state =
        system_state_t.FAULT)
    ↔ ∃ ev ∈ (debug_shutdown m now w).2.1,
        ev.stateAt = system_state_t.RUNNING ∧ LOG_ERROR ≤ ev.level := by
  have hlow : LOG_INFO < LOG_ERROR := by decide
  by_cases hs : m.health.current_state = system_state_t.RUNNING <;>
  · simp only [debug_shutdown, save_log_to_file,
      log_message_low_eq _ _ _ _ _ _ _ hlow]
    split_ifs <;>
      simp_all [log_message_state, log_message_events,
        (by decide : LOG_ERROR ≤ LOG_ERROR),
        (by decide : LOG_ERROR ≤ LOG_CRITICAL)]

/-- Per-operation escalation analysis: an operation moves the state into
FAULT exactly when it performs an append of severity at least LOG_ERROR
at a moment the state is RUNNING. -/
theorem fault_transition_iff_step (m : debug_monitor_t) (op : Op) :
    (m.health.current_state ≠ system_state_t.FAULT ∧
      (applyOp m op).health.current_state = system_state_t.FAULT)
    ↔ ∃ ev ∈ (stepOp m op).2,
        ev.stateAt = system_state_t.RUNNING ∧ LOG_ERROR ≤ ev.level := by
  cases op with
  | append now level error msg fn line =>
    simp only [applyOp, stepOp]
    by_cases hl : LOG_ERROR ≤ level
    · by_cases hs : m.health.current_state = system_state_t.RUNNING <;>
        simp_all [log_message_state, log_message_events]
    · have hc : ¬ (LOG_ERROR ≤ level ∧
          m.health.current_state = system_state_t.RUNNING) := fun h => hl h.1
      simp only [log_message_state, log_message_events, if_neg hc]
      constructor
      · rintro ⟨a, b⟩
        exact absurd b a
      · rintro ⟨ev, hmem, -, hge⟩
        simp only [List.mem_singleton] at hmem
        subst hmem
        exact absurd hge hl
  | inject now k =>
    obtain ⟨h1, -, -, -, -, -, -, hev, -⟩ := inject_fault_spec m now k
    simp only [applyOp, stepOp]
    rw [h1, hev]
    simp [(by decide : ¬ (LOG_ERROR ≤ LOG_WARNING))]
  | tick now r1 r2 =>
    simp only [applyOp, stepOp]
    exact check_system_health_c1 m now r1 r2
  | recover now r1 r2 =>
    by_cases hf : m.health.current_state = system_state_t.FAULT
    · have hev := attempt_fault_recovery_fault_events m now r1 r2 hf
      simp only [applyOp, stepOp]
      constructor
      · rintro ⟨hne, -⟩
        exact absurd hf hne
      · rintro ⟨ev, hmem, -, hge⟩
        rw [hev ev hmem] at hge
        exact absurd hge (by decide)
    · simp [applyOp, stepOp, attempt_fault_recovery_nofault_eq m now r1 r2 hf,
        log_message_state, log_message_events, hf,
        (by decide : ¬ (LOG_ERROR ≤ LOG_INFO))]
  | display =>
    simp [applyOp, stepOp]
  | shutdown now w =>
    simp only [applyOp, stepOp]
    exact debug_shutdown_c1 m now w

/-- Claim C1: along every operation sequence from the initialized
monitor, the state transitions into Fault after the next operation if
and only if that operation performs a log append of severity at least
Error at a moment the state is Running; every other effect of the
operations (inject, health tick, recovery, display, shutdown) leaves
Fault unentered. -/
theorem C1_fault_transition_iff (t0 : Nat) (sink : Bool) (tr : List Op)
    (op : Op) :
    ((runTrace t0 sink tr).health.current_state ≠ system_state_t.FAULT ∧
      (runTrace t0 sink (tr ++ [op])).health.current_state =
        system_state_t.FAULT)
    ↔ ∃ ev ∈ (stepOp (runTrace t0 sink tr) op).2,
        ev.stateAt = system_state_t.RUNNING ∧ LOG_ERROR ≤ ev.level := by
  have h : runTrace t0 sink (tr ++ [op]) =
      applyOp (runTrace t0 sink tr) op := by
    simp [runTrace]
  rw [h]
  exact fault_transition_iff_step _ op

/-- The fault history is preserved by debug_shutdown. -/
theorem debug_shutdown_history (m : debug_monitor_t) (now : Nat) (w : Bool) :
    (debug_shutdown m now w).1.fault_history = m.fault_history := by
  simp only [debug_shutdown, save_log_to_file]
  split_ifs <;> simp [log_message_preserves]

/-- The log buffer of debug_shutdown stays within capacity. -/
theorem debug_shutdown_buflen (m : debug_monitor_t) (now : Nat) (w : Bool) :
    (debug_shutdown m now w).1.log_buffer.length ≤ MAX_LOG_ENTRIES := by
  simp only [debug_shutdown, save_log_to_file]
  split_ifs <;> simp [log_message_buflen_le]

/-- Every operation keeps the log buffer within capacity. -/
theorem applyOp_buflen (m : debug_monitor_t) (op : Op)
    (h : m.log_buffer.length ≤ MAX_LOG_ENTRIES) :
    (applyOp m op).log_buffer.length ≤ MAX_LOG_ENTRIES := by
  cases op with
  | append now level error msg fn line =>
    simp only [applyOp, stepOp]
    exact log_message_buflen_le _ _ _ _ _ _ _
  | inject now k =>
    obtain ⟨-, -, -, -, -, -, -, -, hbl⟩ := inject_fault_spec m now k
    simpa only [applyOp, stepOp] using hbl
  | tick now r1 r2 =>
    simp only [applyOp, stepOp]
    exact check_system_health_buflen m now r1 r2 h
  | recover now r1 r2 =>
    simp only [applyOp, stepOp]
    by_cases hf : m.health.current_state = system_state_t.FAULT
    · have hne : ¬ (m.health.current_state ≠ system_state_t.FAULT) := by
        simp [hf]
      unfold attempt_fault_recovery
      rw [if_neg hne]
      exact log_message_buflen_le _ _ _ _ _ _ _
    · rw [attempt_fault_recovery_nofault_eq m now r1 r2 hf]
      exact log_message_buflen_le _ _ _ _ _ _ _
  | display =>
    simpa only [applyOp, stepOp] using h
  | shutdown now w =>
    simp only [applyOp, stepOp]
    exact debug_shutdown_buflen m now w

/-- Every operation keeps the fault history within capacity. -/
theorem applyOp_histlen (m : debug_monitor_t) (op : Op)
    (h : m.fault_history.length ≤ MAX_FAULT_HISTORY) :
    (applyOp m op).fault_history.length ≤ MAX_FAULT_HISTORY := by
  cases op with
  | append now level error msg fn line =>
    obtain ⟨hh, -⟩ := log_message_preserves m now level error msg fn line
    simp only [applyOp, stepOp]
    rw [hh]
    exact h
  | inject now k =>
    obtain ⟨-, -, -, -, -, -, hh, -, -⟩ := inject_fault_spec m now k
    simp only [applyOp, stepOp]
    rw [hh]
    split_ifs with hlt
    · simp only [List.length_append, List.length_singleton]
      omega
    · exact h
  | tick now r1 r2 =>
    obtain ⟨hh, -⟩ := check_system_health_frame m now r1 r2
    simp only [applyOp, stepOp]
    rw [hh]
    exact h
  | recover now r1 r2 =>
    simp only [applyOp, stepOp]
    by_cases hf : m.health.current_state = system_state_t.FAULT
    · obtain ⟨-, -, -, -, hh⟩ := attempt_fault_recovery_fault_spec m now r1 r2 hf
      rw [hh, List.length_map]
      exact h
    · rw [attempt_fault_recovery_nofault_eq m now r1 r2 hf]
      obtain ⟨hh, -⟩ := log_message_preserves m now LOG_INFO ERR_NONE
        "No faults to recover from" "attempt_fault_recovery" 470
      rw [hh]
      exact h
  | display =>
    simpa only [applyOp, stepOp] using h
  | shutdown now w =>
    simp only [applyOp, stepOp]
    rw [debug_shutdown_history m now w]
    exact h

/-- The initialized monitor starts within log capacity. -/
theorem debug_init_buflen (t0 : Nat) (sink : Bool) :
    (debug_init t0 sink).log_buffer.length ≤ MAX_LOG_ENTRIES := by
  unfold debug_init
  exact log_message_buflen_le _ _ _ _ _ _ _

/-- The initialized monitor has an empty fault history. -/
theorem debug_init_history (t0 : Nat) (sink : Bool) :
    (debug_init t0 sink).fault_history = [] := by
  unfold debug_init
  simp [log_message_preserves]

/-- Along every trace the log buffer stays within capacity. -/
theorem runTrace_buflen (t0 : Nat) (sink : Bool) (tr : List Op) :
    (runTrace t0 sink tr).log_buffer.length ≤ MAX_LOG_ENTRIES := by
  suffices h : ∀ (l : List Op) (m : debug_monitor_t),
      m.log_buffer.length ≤ MAX_LOG_ENTRIES →
      (l.foldl applyOp m).log_buffer.length ≤ MAX_LOG_ENTRIES by
    exact h tr _ (debug_init_buflen t0 sink)
  intro l
  induction l with
  | nil =>
    intro m h
    simpa using h
  | cons op rest ih =>
    intro m h
    simp only [List.foldl_cons]
    exact ih _ (applyOp_buflen m op h)

/-- Along every trace the fault history stays within capacity. -/
theorem runTrace_histlen (t0 : Nat) (sink : Bool) (tr : List Op) :
    (runTrace t0 sink tr).fault_history.length ≤ MAX_FAULT_HISTORY := by
  suffices h : ∀ (l : List Op) (m : debug_monitor_t),
      m.fault_history.length ≤ MAX_FAULT_HISTORY →
      (l.foldl applyOp m).fault_history.length ≤ MAX_FAULT_HISTORY by
    refine h tr _ ?_
    rw [debug_init_history t0 sink]
    simp [MAX_FAULT_HISTORY]
  intro l
  induction l with
  | nil =>
    intro m h
    simpa using h
  | cons op rest ih =>
    intro m h
    simp only [List.foldl_cons]
    exact ih _ (applyOp_histlen m op h)

/-- A sample log entry used by concrete witnesses. -/
def sampleEntry : log_entry_t :=
  { timestamp := 0, level := LOG_INFO, error_code := ERR_NONE,
    message := "x", function := "f", line_number := 0 }

/-- A sample fault record used by concrete witnesses. -/
def sampleRecord : fault_record_t :=
  { timestamp := 0, fault_type := fault_type_t.SENSOR_NOISE,
    error_code := ERR_NONE, resolved := false, description := "r" }

/-- Claim C2: along every operation sequence from the initialized
monitor log_count never exceeds 1000, and an append into a full buffer
evicts the entry at index 0, shifts the rest down one slot, and places
the new entry in the last slot (FIFO eviction). -/
theorem C2_log_capacity_fifo :
    (∀ (t0 : Nat) (sink : Bool) (tr : List Op),
      (runTrace t0 sink tr).log_count ≤ MAX_LOG_ENTRIES) ∧
    ∀ (buf : List log_entry_t) (e : log_entry_t),
      buf.length = MAX_LOG_ENTRIES →
        log_buffer_insert buf e = buf.drop 1 ++ [e] :=
  ⟨fun t0 sink tr => runTrace_buflen t0 sink tr,
   fun buf e h => log_buffer_insert_full buf e h⟩

/-- Witness for C2 at concrete inputs: the empty trace, and a full
buffer of 1000 sample entries. -/
theorem C2_log_capacity_fifo_witness :
    (runTrace 0 true []).log_count ≤ MAX_LOG_ENTRIES ∧
    (List.replicate MAX_LOG_ENTRIES sampleEntry).length = MAX_LOG_ENTRIES ∧
    log_buffer_insert (List.replicate MAX_LOG_ENTRIES sampleEntry)
        sampleEntry =
      (List.replicate MAX_LOG_ENTRIES sampleEntry).drop 1 ++ [sampleEntry] :=
  ⟨C2_log_capacity_fifo.1 0 true [],
   by simp,
   C2_log_capacity_fifo.2 (List.replicate MAX_LOG_ENTRIES sampleEntry)
     sampleEntry (by simp)⟩

/-- Claim C3: along every operation sequence the fault history never
holds more than 50 records, and an injection into a full history still
arms the injector (flag and active fault set) while adding no record. -/
theorem C3_fault_history_saturates :
    (∀ (t0 : Nat) (sink : Bool) (tr : List Op),
      (runTrace t0 sink tr).fault_count_in_history ≤ MAX_FAULT_HISTORY) ∧
    ∀ (m : debug_monitor_t) (now : Nat) (k : fault_type_t),
      m.fault_history.length = MAX_FAULT_HISTORY →
        (inject_fault m now k).1.fault_history = m.fault_history ∧
        (inject_fault m now k).1.fault_injection_enabled = true ∧
        (inject_fault m now k).1.active_fault = k := by
  refine ⟨fun t0 sink tr => runTrace_histlen t0 sink tr, ?_⟩
  intro m now k h
  obtain ⟨-, -, -, hen, hac, -, hh, -, -⟩ := inject_fault_spec m now k
  refine ⟨?_, hen, hac⟩
  rw [hh, if_neg (by omega)]

/-- A monitor whose fault history is already full, for the C3 witness. -/
def monitorFullHistory : debug_monitor_t :=
  { debug_init 0 true with
      fault_history := List.replicate MAX_FAULT_HISTORY sampleRecord }

/-- Witness for C3 at concrete inputs: the empty trace, and the 51st
injection into a monitor with 50 records. -/
theorem C3_fault_history_saturates_witness :
    (runTrace 0 true []).fault_count_in_history ≤ MAX_FAULT_HISTORY ∧
    monitorFullHistory.fault_history.length = MAX_FAULT_HISTORY ∧
    (inject_fault monitorFullHistory 1 fault_type_t.COMM_BREAK).1.fault_history =
      monitorFullHistory.fault_history ∧
    (inject_fault monitorFullHistory 1
        fault_type_t.COMM_BREAK).1.fault_injection_enabled = true ∧
    (inject_fault monitorFullHistory 1
        fault_type_t.COMM_BREAK).1.active_fault = fault_type_t.COMM_BREAK := by
  have h2 := C3_fault_history_saturates.2 monitorFullHistory 1
    fault_type_t.COMM_BREAK (by simp [monitorFullHistory])
  exact ⟨C3_fault_history_saturates.1 0 true [],
    by simp [monitorFullHistory], h2.1, h2.2.1, h2.2.2⟩

/-- A monitor in FAULT whose recovery counter sits at the uint16
maximum. -/
def monitorWrap : debug_monitor_t :=
  { log_buffer := [], fault_history := [],
    health :=
      { current_state := system_state_t.FAULT, uptime_seconds := 0,
        fault_count := 0, recovery_count := 65535,
        cpu_usage_percent := 0, memory_usage_percent := 0,
        last_health_check := 0 },
    log_file := true, fault_injection_enabled := true,
    active_fault := fault_type_t.SENSOR_NOISE,
    wd_last_feed := 0, wd_logged := false }

/-- Counterexample to claim C4 as stated: recovery_count is a uint16_t,
so from 65535 the increment wraps to 0 instead of adding exactly 1. -/
theorem C4_counterexample :
    monitorWrap.health.current_state = system_state_t.FAULT ∧
    (attempt_fault_recovery monitorWrap 5 0 0).1.health.recovery_count ≠
      monitorWrap.health.recovery_count + 1 := by
  constructor
  · rfl
  · decide

/-- Claim C4 (amended): attempt_fault_recovery from FAULT ends RUNNING,
increments recovery_count by exactly 1 modulo 2^16 (the counter is a
16-bit integer and wraps from 65535 to 0), disables fault injection,
clears the active fault, and leaves every history record resolved. -/
theorem C4_recovery_spec_amended (m : debug_monitor_t) (now r1 r2 : Nat)
    (h : m.health.current_state = system_state_t.FAULT) :
    (attempt_fault_recovery m now r1 r2).1.health.current_state =
      system_state_t.RUNNING ∧
    (attempt_fault_recovery m now r1 r2).1.health.recovery_count =
      (m.health.recovery_count + 1) % 65536 ∧
    (attempt_fault_recovery m now r1 r2).1.fault_injection_enabled = false ∧
    (attempt_fault_recovery m now r1 r2).1.active_fault =
      fault_type_t.NONE ∧
    ∀ r ∈ (attempt_fault_recovery m now r1 r2).1.fault_history,
      r.resolved = true := by
  obtain ⟨h1, h2, h3, h4, h5⟩ := attempt_fault_recovery_fault_spec m now r1 r2 h
  refine ⟨h1, h2, h3, h4, ?_⟩
  rw [h5]
  intro r hr
  simp only [List.mem_map] at hr
  obtain ⟨s, -, hs⟩ := hr
  by_cases hres : s.resolved = true
  · rw [← hs, if_pos hres]
    exact hres
  · rw [← hs, if_neg hres]

/-- A small monitor in FAULT with one unresolved record, for the C4
witness. -/
def monitorInFault : debug_monitor_t :=
  { log_buffer := [], fault_history := [sampleRecord],
    health :=
      { current_state := system_state_t.FAULT, uptime_seconds := 0,
        fault_count := 1, recovery_count := 0,
        cpu_usage_percent := 30, memory_usage_percent := 40,
        last_health_check := 0 },
    log_file := true, fault_injection_enabled := true,
    active_fault := fault_type_t.SENSOR_NOISE,
    wd_last_feed := 0, wd_logged := false }

/-- Witness for the amended C4 at a concrete faulted monitor. -/
theorem C4_recovery_spec_amended_witness :
    monitorInFault.health.current_state = system_state_t.FAULT ∧
    ((attempt_fault_recovery monitorInFault 5 0 0).1.health.current_state =
        system_state_t.RUNNING ∧
      (attempt_fault_recovery monitorInFault 5 0 0).1.health.recovery_count =
        (monitorInFault.health.recovery_count + 1) % 65536 ∧
      (attempt_fault_recovery monitorInFault 5 0 0).1.fault_injection_enabled =
        false ∧
      (attempt_fault_recovery monitorInFault 5 0 0).1.active_fault =
        fault_type_t.NONE ∧
      ∀ r ∈ (attempt_fault_recovery monitorInFault 5 0 0).1.fault_history,
        r.resolved = true) :=
  ⟨rfl, C4_recovery_spec_amended monitorInFault 5 0 0 rfl⟩

/-- A plain RUNNING monitor with empty buffers. -/
def monitorRunningEmpty : debug_monitor_t :=
  { log_buffer := [], fault_history := [],
    health :=
      { current_state := system_state_t.RUNNING, uptime_seconds := 0,
        fault_count := 0, recovery_count := 0,
        cpu_usage_percent := 0, memory_usage_percent := 0,
        last_health_check := 0 },
    log_file := true, fault_injection_enabled := false,
    active_fault := fault_type_t.NONE,
    wd_last_feed := 0, wd_logged := false }

/-- Counterexample to claim C5 as stated: the non-FAULT recovery call
still appends one Info entry, so the log buffer field does change. -/
theorem C5_counterexample :
    monitorRunningEmpty.health.current_state ≠ system_state_t.FAULT ∧
    (attempt_fault_recovery monitorRunningEmpty 5 0 0).1.log_buffer ≠
      monitorRunningEmpty.log_buffer := by
  constructor
  · decide
  · decide

/-- Claim C5 (amended): outside FAULT, attempt_fault_recovery changes no
field except the event log, to which it appends exactly one Info-level
"No faults to recover from" entry. -/
theorem C5_recovery_noop_amended (m : debug_monitor_t) (now r1 r2 : Nat)
    (h : m.health.current_state ≠ system_state_t.FAULT) :
    (attempt_fault_recovery m now r1 r2).1.health = m.health ∧
    (attempt_fault_recovery m now r1 r2).1.fault_history =
      m.fault_history ∧
    (attempt_fault_recovery m now r1 r2).1.fault_injection_enabled =
      m.fault_injection_enabled ∧
    (attempt_fault_recovery m now r1 r2).1.active_fault = m.active_fault ∧
    (attempt_fault_recovery m now r1 r2).1.log_file = m.log_file ∧
    (attempt_fault_recovery m now r1 r2).1.wd_last_feed = m.wd_last_feed ∧
    (attempt_fault_recovery m now r1 r2).1.wd_logged = m.wd_logged ∧
    (attempt_fault_recovery m now r1 r2).1.log_buffer =
      log_buffer_insert m.log_buffer
        ({ timestamp := now, level := LOG_INFO, error_code := ERR_NONE,
           message := String.take "No faults to recover from" 255,
           function := String.take "attempt_fault_recovery" 63,
           line_number := 470 }) := by
  rw [attempt_fault_recovery_nofault_eq m now r1 r2 h,
    log_message_low_eq _ _ _ _ _ _ _ (by decide)]
  exact ⟨rfl, rfl, rfl, rfl, rfl, rfl, rfl, rfl⟩

/-- Witness for the amended C5 at a concrete RUNNING monitor. -/
theorem C5_recovery_noop_amended_witness :
    monitorRunningEmpty.health.current_state ≠ system_state_t.FAULT ∧
    ((attempt_fault_recovery monitorRunningEmpty 5 0 0).1.health =
        monitorRunningEmpty.health ∧
      (attempt_fault_recovery monitorRunningEmpty 5 0 0).1.fault_history =
        monitorRunningEmpty.fault_history ∧
      (attempt_fault_recovery monitorRunningEmpty 5 0 0).1.fault_injection_enabled =
        monitorRunningEmpty.fault_injection_enabled ∧
      (attempt_fault_recovery monitorRunningEmpty 5 0 0).1.active_fault =
        monitorRunningEmpty.active_fault ∧
      (attempt_fault_recovery monitorRunningEmpty 5 0 0).1.log_file =
        monitorRunningEmpty.log_file ∧
      (attempt_fault_recovery monitorRunningEmpty 5 0 0).1.wd_last_feed =
        monitorRunningEmpty.wd_last_feed ∧
      (attempt_fault_recovery monitorRunningEmpty 5 0 0).1.wd_logged =
        monitorRunningEmpty.wd_logged ∧
      (attempt_fault_recovery monitorRunningEmpty 5 0 0).1.log_buffer =
        log_buffer_insert monitorRunningEmpty.log_buffer
          ({ timestamp := 5, level := LOG_INFO, error_code := ERR_NONE,
             message := String.take "No faults to recover from" 255,
             function := String.take "attempt_fault_recovery" 63,
             line_number := 470 })) :=
  ⟨by decide, C5_recovery_noop_amended monitorRunningEmpty 5 0 0 (by decide)⟩

/-- Two insertions into a buffer with at least two free slots append
both entries without eviction. -/
theorem log_buffer_insert_twice_len (buf : List log_entry_t)
    (e1 e2 : log_entry_t) (h : buf.length ≤ MAX_LOG_ENTRIES - 2) :
    (log_buffer_insert (log_buffer_insert buf e1) e2).length =
      buf.length + 2 ∧
    (log_buffer_insert (log_buffer_insert buf e1) e2).getLast? = some e2 := by
  have hA : buf.length < MAX_LOG_ENTRIES := by
    simp only [MAX_LOG_ENTRIES] at *
    omega
  rw [log_buffer_insert_of_lt _ _ hA]
  have hB : (buf ++ [e1]).length < MAX_LOG_ENTRIES := by
    simp only [MAX_LOG_ENTRIES, List.length_append,
      List.length_singleton] at *
    omega
  rw [log_buffer_insert_of_lt _ _ hB]
  constructor
  · simp
  · simp

/-- A RUNNING monitor whose log buffer is already full. -/
def monitorFullRunning : debug_monitor_t :=
  { monitorRunningEmpty with
      log_buffer := List.replicate MAX_LOG_ENTRIES sampleEntry }

set_option maxRecDepth 8192 in
/-- Counterexample to claim C7 as stated: with the buffer full, the two
appends of a Critical entry while RUNNING both evict, so log_count stays
at 1000 instead of increasing by exactly 2. -/
theorem C7_counterexample :
    monitorFullRunning.health.current_state = system_state_t.RUNNING ∧
    (log_message monitorFullRunning 5 LOG_CRITICAL ERR_MEMORY_CORRUPTION
        "boom" "f" 1).1.log_buffer.length ≠
      monitorFullRunning.log_buffer.length + 2 := by
  constructor
  · rfl
  · decide

/-- Claim C7 (amended): appending one Critical entry while RUNNING, with
at least two free log slots and the health fault counter below its
uint16 maximum, ends in FAULT, bumps the health fault_count by exactly
1, appends exactly two entries (so log_count grows by 2), the last one
being the Warning "System entered fault state" entry, and the secondary
append happens at state FAULT, so it cannot re-trigger escalation; with
the buffer at or near capacity FIFO eviction caps log_count at 1000
instead. -/
theorem C7_critical_append_amended (m : debug_monitor_t)
    (now error : Nat) (msg fn : String) (line : Nat)
    (h1 : m.health.current_state = system_state_t.RUNNING)
    (h2 : m.log_buffer.length ≤ MAX_LOG_ENTRIES - 2)
    (h3 : m.health.fault_count < 65535) :
    (log_message m now LOG_CRITICAL error msg fn line).1.health.current_state =
      system_state_t.FAULT ∧
    (log_message m now LOG_CRITICAL error msg fn line).1.health.fault_count =
      m.health.fault_count + 1 ∧
    (log_message m now LOG_CRITICAL error msg fn line).1.log_buffer.length =
      m.log_buffer.length + 2 ∧
    (log_message m now LOG_CRITICAL error msg fn line).1.log_buffer.getLast? =
      some ({ timestamp := now, level := LOG_WARNING, error_code := error,
              message := "System entered fault state",
              function := "log_message", line_number := 396 }) ∧
    (log_message m now LOG_CRITICAL error msg fn line).2 =
      [{ stateAt := system_state_t.RUNNING, level := LOG_CRITICAL,
         error_code := error },
       { stateAt := system_state_t.FAULT, level := LOG_WARNING,
         error_code := error }] := by
  rw [log_message_escalate_eq m now LOG_CRITICAL error msg fn line
    (by decide) h1]
  obtain ⟨hlen, hlast⟩ := log_buffer_insert_twice_len m.log_buffer
    ({ timestamp := now, level := LOG_CRITICAL, error_code := error,
       message := msg.take 255, function := fn.take 63,
       line_number := line })
    ({ timestamp := now, level := LOG_WARNING, error_code := error,
       message := "System entered fault state",
       function := "log_message", line_number := 396 }) h2
  exact ⟨rfl, Nat.mod_eq_of_lt (by omega), hlen, hlast, rfl⟩

/-- Witness for the amended C7 at a concrete RUNNING monitor with room. -/
theorem C7_critical_append_amended_witness :
    monitorRunningEmpty.health.current_state = system_state_t.RUNNING ∧
    monitorRunningEmpty.log_buffer.length ≤ MAX_LOG_ENTRIES - 2 ∧
    monitorRunningEmpty.health.fault_count < 65535 ∧
    ((log_message monitorRunningEmpty 7 LOG_CRITICAL ERR_SENSOR_FAILURE
        "sensor dead" "sim" 589).1.health.current_state =
      system_state_t.FAULT ∧
    (log_message monitorRunningEmpty 7 LOG_CRITICAL ERR_SENSOR_FAILURE
        "sensor dead" "sim" 589).1.health.fault_count =
      monitorRunningEmpty.health.fault_count + 1 ∧
    (log_message monitorRunningEmpty 7 LOG_CRITICAL ERR_SENSOR_FAILURE
        "sensor dead" "sim" 589).1.log_buffer.length =
      monitorRunningEmpty.log_buffer.length + 2 ∧
    (log_message monitorRunningEmpty 7 LOG_CRITICAL ERR_SENSOR_FAILURE
        "sensor dead" "sim" 589).1.log_buffer.getLast? =
      some ({ timestamp := 7, level := LOG_WARNING,
              error_code := ERR_SENSOR_FAILURE,
              message := "System entered fault state",
              function := "log_message", line_number := 396 }) ∧
    (log_message monitorRunningEmpty 7 LOG_CRITICAL ERR_SENSOR_FAILURE
        "sensor dead" "sim" 589).2 =
      [{ stateAt := system_state_t.RUNNING, level := LOG_CRITICAL,
         error_code := ERR_SENSOR_FAILURE },
       { stateAt := system_state_t.FAULT, level := LOG_WARNING,
         error_code := ERR_SENSOR_FAILURE }]) :=
  ⟨rfl, by decide, by decide,
   C7_critical_append_amended monitorRunningEmpty 7 ERR_SENSOR_FAILURE
     "sensor dead" "sim" 589 rfl (by decide) (by decide)⟩

/-- Thirteen once-per-second health ticks spanning exactly 12 simulated
seconds, with no other operation in between. -/
def wdTrace : List Op := (List.range 13).map (fun i => Op.tick (1000 + i) 0 0)

/-- Claim C6 evidence: over the 12-second tick sequence the code emits
exactly ONE Critical watchdog-timeout entry, not the two the claim
requires, because the watchdog_logged flag is set at the first timeout
and never cleared again. -/
theorem C6_watchdog_single_entry :
    watchdog_events (runEvents (debug_init 1000 true) wdTrace).2 = 1 := by
  decide

/-- Claim C8 evidence: uptime_seconds is the delta since the previous
check, so over health checks at times 1000, 1010, 1011 it reads 10 and
then 1 - it decreases between consecutive ticks. -/
theorem C8_uptime_delta_decreases :
    (applyOp (debug_init 1000 true)
      (Op.tick 1010 0 0)).health.uptime_seconds = 10 ∧
    (applyOp (applyOp (debug_init 1000 true) (Op.tick 1010 0 0))
      (Op.tick 1011 0 0)).health.uptime_seconds = 1 := by
  decide

/-- Claim C9 evidence: shutting down from RUNNING with a missing sink
aborts - the flush logs an ERROR entry, that append escalates RUNNING to
FAULT, and the final shutdown assertion then fires. -/
theorem C9_shutdown_assert_fires :
    (debug_init 1000 false).health.current_state =
      system_state_t.RUNNING ∧
    (debug_shutdown (debug_init 1000 false) 2000 false).2.2 = true := by
  decide

/-- Every event a health tick emits carries the watchdog-timeout error
code (the only append the tick can reach is the watchdog one, whose
escalation side entry inherits the same code). -/
theorem check_system_health_events_wd (m : debug_monitor_t)
    (now r1 r2 : Nat) :
    ∀ ev ∈ (check_system_health m now r1 r2).2,
      ev.error_code = ERR_WATCHDOG_TIMEOUT := by
  simp only [check_system_health]
  rw [if_neg (cpu_check_false r1)]
  dsimp only
  rw [if_neg (mem_check_false r2)]
  dsimp only
  split_ifs with hf hd hw
  · intro ev hmem
    simp at hmem
  · intro ev hmem
    simp at hmem
  · intro ev hmem
    simp only [List.nil_append] at hmem
    rw [log_message_events] at hmem
    split_ifs at hmem with hrun
    · simp only [List.mem_cons, List.not_mem_nil, or_false] at hmem
      rcases hmem with rfl | rfl
      · rfl
      · rfl
    · simp only [List.mem_cons, List.not_mem_nil, or_false] at hmem
      rcases hmem with rfl
      rfl
  · intro ev hmem
    simp at hmem

/-- Claim C10: in every health tick the freshly regenerated gauges stay
below 50 and 80, so the SystemOverload and memory-critical Error
branches are unreachable and no tick event carries either error code. -/
theorem C10_overload_branches_unreachable (m : debug_monitor_t)
    (now r1 r2 : Nat) :
    (check_system_health m now r1 r2).1.health.cpu_usage_percent < 50 ∧
    (check_system_health m now r1 r2).1.health.memory_usage_percent < 80 ∧
    ∀ ev ∈ (check_system_health m now r1 r2).2,
      ev.error_code ≠ ERR_SYSTEM_OVERLOAD ∧
      ev.error_code ≠ ERR_MEMORY_CORRUPTION := by
  obtain ⟨-, -, -, -, -, hcpu, hmem⟩ := check_system_health_frame m now r1 r2
  refine ⟨by rw [hcpu]; omega, by rw [hmem]; omega, ?_⟩
  intro ev hev
  rw [check_system_health_events_wd m now r1 r2 ev hev]
  exact ⟨by decide, by decide⟩
